import Mathlib

/-!
Verification development for the `pipelines::pcm2mp3` component
(src/src/pcm2mp3.h): a PCM-to-MP3 streaming converter built on a
GStreamer pipeline.  The definitions below are a shallow embedding of
the component's state and of the operations `start`, `stop`,
`push_pcm_data` and `push_silence`, translated from the C++ source.
Machine arithmetic is modelled over `Nat` with explicit reductions
modulo `2^32` (C++ `unsigned int`) and `2^64` (`guint64` / `size_t`)
exactly where the C++ expressions are computed at those widths.
-/

set_option autoImplicit false

/-- `2^32`: modulus of C++ `unsigned int` arithmetic (`rate_`, `channels_`,
`depth_`, `duration_ms` are all `unsigned int`). -/
def U32 : Nat := 2 ^ 32

/-- `2^64`: modulus of `guint64` (the `pts_` counter) and `size_t`. -/
def U64 : Nat := 2 ^ 64

/-- `GST_SECOND`: one second in nanoseconds. -/
def GST_SECOND : Nat := 1000000000

/-- The GStreamer flow-return codes that `gst_app_src_push_buffer` can
produce, as relevant to the push path. -/
inductive GstFlowReturn where
  | ok
  | notLinked
  | flushing
  | eos
  | notNegotiated
  | flowErr
  | notSupported
deriving Repr, DecidableEq

/-- `gst_flow_get_name`: the diagnostic name of a flow return code. -/
def gst_flow_get_name : GstFlowReturn → String
  | GstFlowReturn.ok => "ok"
  | GstFlowReturn.notLinked => "not-linked"
  | GstFlowReturn.flushing => "flushing"
  | GstFlowReturn.eos => "eos"
  | GstFlowReturn.notNegotiated => "not-negotiated"
  | GstFlowReturn.flowErr => "error"
  | GstFlowReturn.notSupported => "not-supported"

/-- GStreamer pipeline states used by the component (`GST_STATE_NULL`,
`GST_STATE_PLAYING`). -/
inductive GstState where
  | null
  | playing
deriving Repr, DecidableEq

/-- The state of a `pcm2mp3` component: the audio parameters
(`rate_`, `channels_`, `depth_`, `format_`, lines 34-36), whether the
pipeline object exists and its GStreamer state (`pipeline_`, line 39),
the processing-thread bookkeeping (`processing_thread_` joinability and
the `processing_stop_` flag, lines 43-44), and the running presentation
timestamp `pts_` (line 45, a `guint64`, kept `< 2^64`). -/
structure Component where
  rate : Nat
  channels : Nat
  depth : Nat
  format : String
  pipelinePresent : Bool
  pipelineState : GstState
  processingStop : Bool
  threadJoinable : Bool
  pts : Nat
deriving Repr, DecidableEq

/-- The constructor `pcm2mp3(rate, channels, depth, format)` (line 48):
stores the audio parameters and builds the pipeline (initially in the
`NULL` state); `processing_stop_` is `false`, no thread is running, and
`pts_` starts at `0`. -/
def mkPcm2mp3 (rate channels depth : Nat) (format : String) : Component :=
  { rate := rate, channels := channels, depth := depth, format := format,
    pipelinePresent := true, pipelineState := GstState.null,
    processingStop := false, threadJoinable := false, pts := 0 }

/-- `sample_size = channels_ * (depth_ / 8)` (lines 99 and 116).  Both
operands are `unsigned int`, so the product is computed modulo `2^32`
before widening to `size_t`. -/
def sample_size (c : Component) : Nat := (c.channels * (c.depth / 8)) % U32

/-- The error kinds thrown by the component (all `std::runtime_error` in
the source, distinguished by their message): misaligned PCM input
(line 118), a refused PLAYING transition in `start` (line 63), and a
rejected `gst_app_src_push_buffer` (line 144). -/
inductive PcmError where
  | invalidBufferSize
  | stateTransition
  | pushError (msg : String)
deriving Repr, DecidableEq

/-- A buffer handed to the appsrc element: the wrapped bytes together
with the `GST_BUFFER_PTS` and `GST_BUFFER_DURATION` set on it
(lines 128-140). -/
structure SrcBuffer where
  data : List Int
  pts : Nat
  duration : Nat
deriving Repr, DecidableEq

/-- The observable outcome of a push operation: the component state
afterwards, the error surfaced to the caller (if any), the buffer handed
to the appsrc element (if the code reached the push, rejected or not),
and whether the alignment check divided by a zero `sample_size`
(undefined behaviour in the C++). -/
structure PushResult where
  comp : Component
  err : Option PcmError
  forwarded : Option SrcBuffer
  divByZero : Bool
deriving Repr, DecidableEq

/-- `gst_util_uint64_scale (val, num, denom) = val * num / denom`,
computed with a wide intermediate, rounded down, and clamped to
`G_MAXUINT64` on overflow. -/
def gst_util_uint64_scale (val num denom : Nat) : Nat :=
  if val * num / denom ≤ U64 - 1 then val * num / denom else U64 - 1

/-- The buffer duration computed at line 121:
`gst_util_uint64_scale (data.size() / sample_size, GST_SECOND, rate_)`. -/
def pcmDuration (c : Component) (data : List Int) : Nat :=
  gst_util_uint64_scale (data.length / sample_size c) GST_SECOND c.rate

/-- The error message built at line 144 when the appsrc rejects a
buffer: it appends the flow return's diagnostic name. -/
def pushErrMsg (ret : GstFlowReturn) : String :=
  "pcm2mp3 -> failed to push buffer into appsrc: " ++ gst_flow_get_name ret

/-- Embedding of `pcm2mp3::push_pcm_data` (lines 109-146).  The reply of
the appsrc collaborator (`gst_app_src_push_buffer`, line 143) is an
input `srcReply`.  Empty data returns immediately (lines 111-113);
misaligned data throws before `pts_` is touched (lines 117-119); the
duration is the exact integer scaling of line 121; lines 124-125 read
`pts_` and then advance it by the duration (the advance wraps at
`2^64`); the tagged buffer is handed to the appsrc, and a non-OK reply
throws with the flow name embedded (lines 143-145) after `pts_` was
already advanced. -/
def push_pcm_data (c : Component) (srcReply : GstFlowReturn) (data : List Int) :
    PushResult :=
  if data.isEmpty then
    { comp := c, err := none, forwarded := none, divByZero := false }
  else if data.length % sample_size c ≠ 0 then
    { comp := c, err := some PcmError.invalidBufferSize, forwarded := none,
      divByZero := sample_size c == 0 }
  else if srcReply = GstFlowReturn.ok then
    { comp := { c with pts := (c.pts + pcmDuration c data) % U64 }, err := none,
      forwarded := some { data := data, pts := c.pts, duration := pcmDuration c data },
      divByZero := sample_size c == 0 }
  else
    { comp := { c with pts := (c.pts + pcmDuration c data) % U64 },
      err := some (PcmError.pushError (pushErrMsg srcReply)),
      forwarded := some { data := data, pts := c.pts, duration := pcmDuration c data },
      divByZero := sample_size c == 0 }

/-- `num_samples = (rate_ * duration_ms) / 1000` (line 100).  `rate_`
and `duration_ms` are both `unsigned int`, so the product wraps modulo
`2^32` before the division. -/
def silence_num_samples (c : Component) (duration_ms : Nat) : Nat :=
  ((c.rate * duration_ms) % U32) / 1000

/-- `buffer_size = num_samples * sample_size` (line 101), in `size_t`
(both factors are below `2^32`, so the product never wraps). -/
def silence_buffer_size (c : Component) (duration_ms : Nat) : Nat :=
  silence_num_samples c duration_ms * sample_size c

/-- The zero-filled silence buffer of line 104. -/
def silence_buffer (c : Component) (duration_ms : Nat) : List Int :=
  List.replicate (silence_buffer_size c duration_ms) 0

/-- Embedding of `pcm2mp3::push_silence` (lines 97-107): builds the
zero-filled buffer and forwards it in a single `push_pcm_data` call. -/
def push_silence (c : Component) (srcReply : GstFlowReturn) (duration_ms : Nat) :
    PushResult :=
  push_pcm_data c srcReply (silence_buffer c duration_ms)

/-- Embedding of `pcm2mp3::start` (lines 58-85): clears the stop flag,
asks the engine for the PLAYING transition (the engine's acceptance is
the input `engineAccepts`; refusal throws at line 63 before the thread
is spawned), and on success spawns the processing thread. -/
def start (c : Component) (engineAccepts : Bool) : Component × Option PcmError :=
  if engineAccepts then
    ({ c with
        processingStop := false
        pipelineState := GstState.playing
        threadJoinable := true }, none)
  else
    ({ c with processingStop := false }, some PcmError.stateTransition)

/-- Embedding of `pcm2mp3::stop` (lines 87-95): sets the stop flag,
joins the processing thread only if one is joinable, and sets the
pipeline to the `NULL` state if the pipeline object exists. -/
def stop (c : Component) : Component :=
  let c1 := { c with processingStop := true }
  let c2 := if c1.threadJoinable then { c1 with threadJoinable := false } else c1
  if c2.pipelinePresent then { c2 with pipelineState := GstState.null } else c2

/-- The audio configuration fields of a component, as a tuple. -/
def configOf (c : Component) : Nat × Nat × Nat × String :=
  (c.rate, c.channels, c.depth, c.format)

example : sample_size (mkPcm2mp3 32000 1 16 "S16LE") = 2 := by decide
example : silence_buffer_size (mkPcm2mp3 32000 1 16 "S16LE") 1000 = 64000 := by decide
example : pcmDuration (mkPcm2mp3 1000 1 8 "S8") [1, 2] = 2000000 := by decide
example :
    (push_pcm_data (mkPcm2mp3 1000 1 8 "S8") GstFlowReturn.ok [1, 2]).comp.pts =
      2000000 := by decide

/-! ### Characterization lemmas for `push_pcm_data` -/

/-- On a non-empty, aligned buffer with the appsrc accepting, the push
succeeds, tags the buffer with the pre-advance `pts_` and the computed
duration, and advances `pts_` by the duration (modulo `2^64`). -/
theorem push_pcm_data_of_valid (c : Component) (data : List Int)
    (hne : data ≠ []) (halign : data.length % sample_size c = 0) :
    push_pcm_data c GstFlowReturn.ok data =
      { comp := { c with pts := (c.pts + pcmDuration c data) % U64 }, err := none,
        forwarded := some { data := data, pts := c.pts, duration := pcmDuration c data },
        divByZero := sample_size c == 0 } := by
  have hemp : data.isEmpty = false := by
    cases data with
    | nil => exact absurd rfl hne
    | cons a as => rfl
  simp [push_pcm_data, hemp, halign]

/-- On a non-empty, aligned buffer with the appsrc rejecting, the push
hands the tagged buffer to the appsrc, advances `pts_`, and surfaces a
push error embedding the flow name. -/
theorem push_pcm_data_of_rejected (c : Component) (r : GstFlowReturn) (data : List Int)
    (hne : data ≠ []) (halign : data.length % sample_size c = 0)
    (hr : r ≠ GstFlowReturn.ok) :
    push_pcm_data c r data =
      { comp := { c with pts := (c.pts + pcmDuration c data) % U64 },
        err := some (PcmError.pushError (pushErrMsg r)),
        forwarded := some { data := data, pts := c.pts, duration := pcmDuration c data },
        divByZero := sample_size c == 0 } := by
  have hemp : data.isEmpty = false := by
    cases data with
    | nil => exact absurd rfl hne
    | cons a as => rfl
  simp [push_pcm_data, hemp, halign, hr]

/-- On a non-empty, misaligned buffer the push throws the
invalid-buffer-size error before touching any state and before handing
anything to the appsrc. -/
theorem push_pcm_data_of_misaligned (c : Component) (r : GstFlowReturn) (data : List Int)
    (hne : data ≠ []) (hmis : data.length % sample_size c ≠ 0) :
    push_pcm_data c r data =
      { comp := c, err := some PcmError.invalidBufferSize, forwarded := none,
        divByZero := sample_size c == 0 } := by
  have hemp : data.isEmpty = false := by
    cases data with
    | nil => exact absurd rfl hne
    | cons a as => rfl
  simp [push_pcm_data, hemp, hmis]

/-- A push never touches the audio-parameter fields of the component. -/
theorem push_pcm_data_comp_fields (c : Component) (r : GstFlowReturn) (data : List Int) :
    configOf (push_pcm_data c r data).comp = configOf c := by
  unfold push_pcm_data
  split
  · rfl
  split
  · rfl
  split <;> rfl

/-- `sample_size` only depends on the channel count and bit depth. -/
theorem sample_size_eq_of_config {c d : Component} (hch : c.channels = d.channels)
    (hdp : c.depth = d.depth) : sample_size c = sample_size d := by
  simp [sample_size, hch, hdp]

/-! ### Claims C1, C2, C3 -/

set_option linter.unusedVariables false in
/-- Claim C1: for every non-empty PCM buffer `b` whose length is an exact
multiple of `sample_size = channels * (depth / 8)`, `push_pcm_data b` (with
the appsrc accepting) does not fail, computes the duration as the exact
integer scaling `(len b / sample_size) * 1s / rate` (pure integer
arithmetic, no floating point), tags the forwarded buffer with the
timestamp counter's pre-advance value and with that duration, and advances
the timestamp counter by exactly that duration.  (The positive rate is
assumed because the underlying scaling helper is only specified for a
non-zero denominator.) -/
theorem c1_push_pcm_valid (c : Component) (data : List Int)
    (hne : data ≠ [])
    (halign : data.length % sample_size c = 0)
    (hrate : 0 < c.rate)
    (hwrap : c.pts + data.length / sample_size c * GST_SECOND / c.rate < U64) :
    (push_pcm_data c GstFlowReturn.ok data).err = none ∧
    pcmDuration c data = data.length / sample_size c * GST_SECOND / c.rate ∧
    (push_pcm_data c GstFlowReturn.ok data).forwarded =
      some { data := data, pts := c.pts,
             duration := data.length / sample_size c * GST_SECOND / c.rate } ∧
    (push_pcm_data c GstFlowReturn.ok data).comp.pts =
      c.pts + data.length / sample_size c * GST_SECOND / c.rate := by
  have hdur : pcmDuration c data = data.length / sample_size c * GST_SECOND / c.rate := by
    have hq : data.length / sample_size c * GST_SECOND / c.rate ≤ U64 - 1 := by
      unfold U64 at hwrap ⊢
      omega
    simp [pcmDuration, gst_util_uint64_scale, hq]
  rw [push_pcm_data_of_valid c data hne halign]
  refine ⟨rfl, hdur, by rw [hdur], ?_⟩
  show (c.pts + pcmDuration c data) % U64 = _
  rw [hdur]
  exact Nat.mod_eq_of_lt hwrap

/-- Witness for C1: a one-channel 8-bit 1000 Hz component receiving two
samples advances the counter by exactly 2 ms and tags the buffer with the
pre-advance counter value 0. -/
theorem c1_witness :
    (push_pcm_data (mkPcm2mp3 1000 1 8 "S8") GstFlowReturn.ok [1, 2]).err = none ∧
    (push_pcm_data (mkPcm2mp3 1000 1 8 "S8") GstFlowReturn.ok [1, 2]).forwarded =
      some { data := [1, 2], pts := 0, duration := 2000000 } ∧
    (push_pcm_data (mkPcm2mp3 1000 1 8 "S8") GstFlowReturn.ok [1, 2]).comp.pts =
      2000000 := by
  have h := c1_push_pcm_valid (mkPcm2mp3 1000 1 8 "S8") [1, 2]
    (by decide) (by decide) (by decide) (by decide)
  exact ⟨h.1, h.2.2.1.trans (by decide), h.2.2.2.trans (by decide)⟩

/-- Claim C2: two sequential `push_pcm_data` calls (no interleaving) yield
buffer timestamps `t1` and `t2` with `t2 = t1 + duration(b1)`: consecutive
pushed buffers are timestamped back-to-back, with no gap and no overlap. -/
theorem c2_seq_continuity (c : Component) (b1 b2 : List Int)
    (h1 : b1 ≠ []) (h2 : b2 ≠ [])
    (ha1 : b1.length % sample_size c = 0) (ha2 : b2.length % sample_size c = 0)
    (hwrap : c.pts + pcmDuration c b1 < U64) :
    ∃ t1 t2 : Nat,
      (push_pcm_data c GstFlowReturn.ok b1).forwarded.map SrcBuffer.pts = some t1 ∧
      (push_pcm_data (push_pcm_data c GstFlowReturn.ok b1).comp
          GstFlowReturn.ok b2).forwarded.map SrcBuffer.pts = some t2 ∧
      t2 = t1 + pcmDuration c b1 := by
  have hp1 := push_pcm_data_of_valid c b1 h1 ha1
  have hc1 : (push_pcm_data c GstFlowReturn.ok b1).comp =
      { c with pts := (c.pts + pcmDuration c b1) % U64 } := by rw [hp1]
  have hss : sample_size (push_pcm_data c GstFlowReturn.ok b1).comp = sample_size c := by
    rw [hc1]
    simp [sample_size]
  have hp2 := push_pcm_data_of_valid (push_pcm_data c GstFlowReturn.ok b1).comp b2 h2
    (by rw [hss]; exact ha2)
  refine ⟨c.pts, (c.pts + pcmDuration c b1) % U64, ?_, ?_, Nat.mod_eq_of_lt hwrap⟩
  · rw [hp1]
    rfl
  · rw [hp2, hc1]
    rfl

/-- Witness for C2: pushing one sample and then two samples into a
one-channel 8-bit 1000 Hz component gives timestamps 0 and 1 ms, with
1 ms the duration of the first buffer. -/
theorem c2_witness :
    ∃ t1 t2 : Nat,
      (push_pcm_data (mkPcm2mp3 1000 1 8 "S8") GstFlowReturn.ok [5]).forwarded.map
          SrcBuffer.pts = some t1 ∧
      (push_pcm_data (push_pcm_data (mkPcm2mp3 1000 1 8 "S8") GstFlowReturn.ok [5]).comp
          GstFlowReturn.ok [6, 7]).forwarded.map SrcBuffer.pts = some t2 ∧
      t2 = t1 + pcmDuration (mkPcm2mp3 1000 1 8 "S8") [5] :=
  c2_seq_continuity (mkPcm2mp3 1000 1 8 "S8") [5] [6, 7]
    (by decide) (by decide) (by decide) (by decide) (by decide)

/-- Claim C3: `push_pcm_data data` fails with the invalid-buffer-size error
exactly when `data` is non-empty and misaligned with `sample_size`; on empty
input it is a no-op (no failure, no state change, no buffer forwarded to the
appsrc); whenever it fails with the invalid-buffer-size error the component
(in particular the timestamp counter) is unchanged and nothing was
forwarded; and with a positive `sample_size` no division by zero occurs. -/
theorem c3_invalid_size (c : Component) (r : GstFlowReturn) (data : List Int)
    (hss : 0 < sample_size c) :
    ((push_pcm_data c r data).err = some PcmError.invalidBufferSize ↔
      data ≠ [] ∧ data.length % sample_size c ≠ 0) ∧
    push_pcm_data c r [] =
      { comp := c, err := none, forwarded := none, divByZero := false } ∧
    ((push_pcm_data c r data).err = some PcmError.invalidBufferSize →
      (push_pcm_data c r data).comp = c ∧ (push_pcm_data c r data).forwarded = none) ∧
    (push_pcm_data c r data).divByZero = false := by
  have hz : (sample_size c == 0) = false := by
    simp only [beq_eq_false_iff_ne]
    omega
  by_cases hne : data = []
  · subst hne
    exact ⟨by simp [push_pcm_data], rfl, by simp [push_pcm_data], rfl⟩
  · by_cases hm : data.length % sample_size c = 0
    · by_cases hrr : r = GstFlowReturn.ok
      · subst hrr
        rw [push_pcm_data_of_valid c data hne hm]
        exact ⟨by simp [hm], rfl, by simp, hz⟩
      · rw [push_pcm_data_of_rejected c r data hne hm hrr]
        exact ⟨by simp [hm], rfl, by simp, hz⟩
    · rw [push_pcm_data_of_misaligned c r data hne hm]
      exact ⟨by simp [hne, hm], rfl, fun _ => ⟨rfl, rfl⟩, hz⟩

/-- Witness for C3: a two-channel 8-bit component (sample size 2) rejects a
one-byte buffer with the invalid-buffer-size error, leaves the state
unchanged, and treats the empty buffer as a no-op. -/
theorem c3_witness :
    ((push_pcm_data (mkPcm2mp3 1000 2 8 "S8") GstFlowReturn.ok [9]).err =
        some PcmError.invalidBufferSize ↔
      [(9 : Int)] ≠ [] ∧ [(9 : Int)].length % sample_size (mkPcm2mp3 1000 2 8 "S8") ≠ 0) ∧
    push_pcm_data (mkPcm2mp3 1000 2 8 "S8") GstFlowReturn.ok [] =
      { comp := mkPcm2mp3 1000 2 8 "S8", err := none, forwarded := none,
        divByZero := false } ∧
    ((push_pcm_data (mkPcm2mp3 1000 2 8 "S8") GstFlowReturn.ok [9]).err =
        some PcmError.invalidBufferSize →
      (push_pcm_data (mkPcm2mp3 1000 2 8 "S8") GstFlowReturn.ok [9]).comp =
          mkPcm2mp3 1000 2 8 "S8" ∧
      (push_pcm_data (mkPcm2mp3 1000 2 8 "S8") GstFlowReturn.ok [9]).forwarded = none) ∧
    (push_pcm_data (mkPcm2mp3 1000 2 8 "S8") GstFlowReturn.ok [9]).divByZero = false :=
  c3_invalid_size (mkPcm2mp3 1000 2 8 "S8") GstFlowReturn.ok [9] (by decide)

/-! ### Claims C4, C10, C9: the silence path and `sample_size` arithmetic -/

/-- With a positive buffer size and the appsrc accepting, `push_silence`
forwards a buffer of exactly `silence_buffer_size` bytes. -/
theorem push_silence_forwarded_len (c : Component) (d : Nat)
    (hpos : 0 < silence_buffer_size c d) :
    (push_silence c GstFlowReturn.ok d).forwarded.map (fun b => b.data.length) =
      some (silence_buffer_size c d) := by
  have hne : silence_buffer c d ≠ [] := by
    unfold silence_buffer
    intro hcon
    have := congrArg List.length hcon
    simp at this
    omega
  have hlen : (silence_buffer c d).length = silence_buffer_size c d := by
    simp [silence_buffer]
  have halign : (silence_buffer c d).length % sample_size c = 0 := by
    rw [hlen]
    exact Nat.mul_mod_left _ _
  rw [push_silence, push_pcm_data_of_valid c _ hne halign]
  simp [hlen]

/-- The `divByZero` flag of a push is set exactly when the data is
non-empty and `sample_size` is zero. -/
theorem push_pcm_data_divByZero (c : Component) (r : GstFlowReturn) (data : List Int) :
    (push_pcm_data c r data).divByZero = (!data.isEmpty && (sample_size c == 0)) := by
  unfold push_pcm_data
  split
  · simp_all
  split
  · simp_all
  split <;> simp_all

/-- Claim C4 counterexample: on a component with rate 32000, channels 1,
depth 16, `push_silence 200000` does not forward a buffer of
`rate * duration_ms / 1000 * sample_size` bytes: the 32-bit product
`rate * duration_ms` wraps, so the buffer is smaller than the claimed
size. -/
theorem c4_counterexample :
    (push_silence (mkPcm2mp3 32000 1 16 "S16LE") GstFlowReturn.ok 200000).forwarded.map
        (fun b => b.data.length) ≠
      some (32000 * 200000 / 1000 * sample_size (mkPcm2mp3 32000 1 16 "S16LE")) := by
  rw [push_silence_forwarded_len _ _ (by decide)]
  decide

/-- Claim C4 (amended): `push_silence duration_ms` computes
`num_samples = ((rate * duration_ms) mod 2^32) / 1000` (the product is
computed in unsigned 32-bit arithmetic; without wrap this is exactly
`rate * duration_ms / 1000` with integer truncation), builds a zero-filled
buffer of `num_samples * sample_size` bytes and forwards it in exactly one
`push_pcm_data` call; in particular on a component with rate 32000,
channels 1, depth 16, `push_silence 1000` forwards one buffer of 64000
bytes, all zero. -/
theorem c4_push_silence (c : Component) (d : Nat)
    (hss : 0 < sample_size c) (hpos : 0 < silence_num_samples c d) :
    push_silence c GstFlowReturn.ok d =
      push_pcm_data c GstFlowReturn.ok
        (List.replicate ((c.rate * d) % U32 / 1000 * sample_size c) 0) ∧
    (push_silence c GstFlowReturn.ok d).forwarded.map (fun b => b.data.length) =
      some ((c.rate * d) % U32 / 1000 * sample_size c) ∧
    (∀ b ∈ silence_buffer c d, b = 0) ∧
    (c.rate * d < U32 → silence_num_samples c d = c.rate * d / 1000) ∧
    silence_buffer_size (mkPcm2mp3 32000 1 16 "S16LE") 1000 = 64000 ∧
    (push_silence (mkPcm2mp3 32000 1 16 "S16LE") GstFlowReturn.ok 1000).forwarded.map
        (fun b => b.data.length) = some 64000 := by
  refine ⟨rfl, ?_, ?_, ?_, by decide, ?_⟩
  · exact push_silence_forwarded_len c d (Nat.mul_pos hpos hss)
  · intro b hb
    exact List.eq_of_mem_replicate hb
  · intro h
    simp [silence_num_samples, Nat.mod_eq_of_lt h]
  · exact (push_silence_forwarded_len (mkPcm2mp3 32000 1 16 "S16LE") 1000
      (by decide)).trans (by decide)

/-- Witness for C4 at a concrete component: rate 1000, one channel, 8-bit;
5 ms of silence forwards 5 zero bytes. -/
theorem c4_witness :
    (push_silence (mkPcm2mp3 1000 1 8 "S8") GstFlowReturn.ok 5).forwarded.map
        (fun b => b.data.length) =
      some ((1000 * 5) % U32 / 1000 * sample_size (mkPcm2mp3 1000 1 8 "S8")) ∧
    silence_buffer_size (mkPcm2mp3 32000 1 16 "S16LE") 1000 = 64000 := by
  have h := c4_push_silence (mkPcm2mp3 1000 1 8 "S8") 5 (by decide) (by decide)
  exact ⟨h.2.1, h.2.2.2.2.1⟩

/-- Claim C10: `push_silence` computes `rate * duration_ms` in unsigned
32-bit arithmetic before dividing by 1000, so the sample count equals
`((rate * duration_ms) mod 2^32) / 1000`: when the product is below `2^32`
this is the exact `rate * duration_ms / 1000`, but once the product reaches
`2^32` the computed sample count (and therefore the silence-buffer size,
when `sample_size` is positive) is strictly smaller than the exact value. -/
theorem c10_silence_u32 (c : Component) (d : Nat) :
    (c.rate * d < U32 → silence_num_samples c d = c.rate * d / 1000) ∧
    (U32 ≤ c.rate * d →
      silence_num_samples c d < c.rate * d / 1000 ∧
      (0 < sample_size c →
        silence_buffer_size c d < c.rate * d / 1000 * sample_size c)) := by
  have hU : U32 = 4294967296 := by norm_num [U32]
  constructor
  · intro h
    simp [silence_num_samples, Nat.mod_eq_of_lt h]
  · intro h
    rw [hU] at h
    have hlt : silence_num_samples c d < c.rate * d / 1000 := by
      unfold silence_num_samples
      rw [hU]
      omega
    exact ⟨hlt, fun hss => mul_lt_mul_of_pos_right hlt hss⟩

/-- Witness for C10: rate 32000 with 1000 ms is exact (32000 samples);
rate 32000 with 134218 ms wraps and undercounts. -/
theorem c10_witness :
    silence_num_samples (mkPcm2mp3 32000 1 16 "S16LE") 1000 = 32000 * 1000 / 1000 ∧
    silence_num_samples (mkPcm2mp3 32000 1 16 "S16LE") 134218 < 32000 * 134218 / 1000 := by
  refine ⟨(c10_silence_u32 (mkPcm2mp3 32000 1 16 "S16LE") 1000).1 (by decide), ?_⟩
  exact ((c10_silence_u32 (mkPcm2mp3 32000 1 16 "S16LE") 134218).2 (by decide)).1

/-- Claim C9 counterexample: a component constructed with `2^31` channels
and depth 16 has channels ≥ 1 and depth ≥ 8, yet `sample_size` — computed
as an unsigned 32-bit product — wraps to 0, and a non-empty push divides
by zero. -/
theorem c9_counterexample :
    1 ≤ (2147483648 : Nat) ∧ 8 ≤ (16 : Nat) ∧
    sample_size (mkPcm2mp3 32000 2147483648 16 "S16LE") = 0 ∧
    (push_pcm_data (mkPcm2mp3 32000 2147483648 16 "S16LE") GstFlowReturn.ok
        [1]).divByZero = true := by
  decide

/-- Claim C9 (amended): `push_pcm_data` and `push_silence` compute
`sample_size = channels * (depth / 8)` in unsigned 32-bit arithmetic and
use it as a divisor (modulo and division) with no zero guard.  A component
with channels = 0 or depth < 8 makes `sample_size` zero, and then every
non-empty `push_pcm_data` call performs a division by zero; for a
component with channels ≥ 1, depth ≥ 8 whose product `channels * (depth/8)`
does not wrap (is below `2^32`), the divisor is positive and no division
by zero occurs.  (Because the product wraps modulo `2^32`, channels ≥ 1
and depth ≥ 8 alone do not guarantee a positive divisor.) -/
theorem c9_sample_size (c : Component) :
    (c.channels = 0 ∨ c.depth < 8 → sample_size c = 0) ∧
    (1 ≤ c.channels → 8 ≤ c.depth → c.channels * (c.depth / 8) < U32 →
      0 < sample_size c) ∧
    (∀ r : GstFlowReturn, ∀ data : List Int, data ≠ [] → sample_size c = 0 →
      (push_pcm_data c r data).divByZero = true) ∧
    (∀ r : GstFlowReturn, ∀ data : List Int, 0 < sample_size c →
      (push_pcm_data c r data).divByZero = false) := by
  refine ⟨?_, ?_, ?_, ?_⟩
  · rintro (h | h)
    · simp [sample_size, h]
    · have : c.depth / 8 = 0 := Nat.div_eq_of_lt h
      simp [sample_size, this]
  · intro hch hdp hlt
    have h8 : 1 ≤ c.depth / 8 := (Nat.one_le_div_iff (by norm_num)).mpr hdp
    have hprod : 1 ≤ c.channels * (c.depth / 8) := Nat.mul_le_mul hch h8
    unfold sample_size
    rw [Nat.mod_eq_of_lt hlt]
    omega
  · intro r data hne hz
    rw [push_pcm_data_divByZero, hz]
    have hemp : data.isEmpty = false := by
      cases data with
      | nil => exact absurd rfl hne
      | cons a as => rfl
    simp [hemp]
  · intro r data hss
    rw [push_pcm_data_divByZero]
    have : (sample_size c == 0) = false := by
      simp only [beq_eq_false_iff_ne]
      omega
    simp [this]

/-- Witness for C9: channels = 0 gives a zero divisor and a division by
zero on a non-empty push; the default-like configuration (1 channel,
16-bit) gives a positive divisor and no division by zero. -/
theorem c9_witness :
    sample_size (mkPcm2mp3 32000 0 16 "S16LE") = 0 ∧
    0 < sample_size (mkPcm2mp3 32000 1 16 "S16LE") ∧
    (push_pcm_data (mkPcm2mp3 32000 0 16 "S16LE") GstFlowReturn.ok
        [1]).divByZero = true ∧
    (push_pcm_data (mkPcm2mp3 32000 1 16 "S16LE") GstFlowReturn.ok
        [1]).divByZero = false := by
  refine ⟨(c9_sample_size _).1 (Or.inl rfl),
    (c9_sample_size (mkPcm2mp3 32000 1 16 "S16LE")).2.1 (by decide) (by decide) (by decide),
    ?_, ?_⟩
  · exact (c9_sample_size _).2.2.1 GstFlowReturn.ok [1] (by decide)
      ((c9_sample_size (mkPcm2mp3 32000 0 16 "S16LE")).1 (Or.inl rfl))
  · exact (c9_sample_size _).2.2.2 GstFlowReturn.ok [1]
      ((c9_sample_size (mkPcm2mp3 32000 1 16 "S16LE")).2.1 (by decide) (by decide) (by decide))

/-! ### Claim C5: the timestamp counter is NOT read-and-advanced in one
indivisible operation.  Lines 124-125 of the source perform a plain atomic
load (`pts_.load()`) followed by a separate atomic add (`pts_ += duration`).
The model below interleaves the two operations of two concurrent pushes. -/

/-- Shared state of the racy counter interaction: the `pts_` counter and
the timestamp tag each of the two pushes has read (none before its load). -/
structure RaceState where
  pts : Nat
  tagA : Option Nat
  tagB : Option Nat
deriving Repr, DecidableEq

/-- The four atomic events of two concurrent `push_pcm_data` calls A and B:
for each push, the load of line 124 and the separate add of line 125. -/
inductive RaceEv where
  | loadA
  | addA
  | loadB
  | addB
deriving Repr, DecidableEq, BEq

/-- One atomic event: a load stores the current counter value as the
push's tag; an add advances the counter by that push's duration
(wrapping at `2^64`), exactly as lines 124-125 act on `pts_`. -/
def raceStep (dA dB : Nat) (s : RaceState) : RaceEv → RaceState
  | RaceEv.loadA => { s with tagA := some s.pts }
  | RaceEv.addA => { s with pts := (s.pts + dA) % U64 }
  | RaceEv.loadB => { s with tagB := some s.pts }
  | RaceEv.addB => { s with pts := (s.pts + dB) % U64 }

/-- Run an interleaving of the four events from a zero counter. -/
def raceRun (dA dB : Nat) (evs : List RaceEv) : RaceState :=
  evs.foldl (raceStep dA dB) { pts := 0, tagA := none, tagB := none }

/-- A schedule is a valid interleaving of the two pushes when it performs
each event exactly once and each push's load precedes its own add (the
program order of lines 124-125). -/
def validRaceSchedule (evs : List RaceEv) : Bool :=
  evs.count RaceEv.loadA == 1 && evs.count RaceEv.addA == 1 &&
  evs.count RaceEv.loadB == 1 && evs.count RaceEv.addB == 1 &&
  evs.indexOf RaceEv.loadA < evs.indexOf RaceEv.addA &&
  evs.indexOf RaceEv.loadB < evs.indexOf RaceEv.addB

/-- Claim C5 (code bug): the code reads and advances `pts_` with two
separate atomic operations — a load (line 124) and an independent add
(line 125) — not with one indivisible fetch-and-add.  In the valid
interleaving load-A, load-B, add-A, add-B of two concurrent pushes of
duration 1000000 ns each, both buffers get tag 0 (overlapping timestamps
instead of back-to-back ones) even though the counter correctly advances
by both durations; push B's tag 0 differs from the counter value 1000000
held immediately before B's add, which a single fetch-and-add per push
would have returned. -/
theorem c5_pts_race :
    validRaceSchedule [RaceEv.loadA, RaceEv.loadB, RaceEv.addA, RaceEv.addB] = true ∧
    (raceRun 1000000 1000000
        [RaceEv.loadA, RaceEv.loadB, RaceEv.addA, RaceEv.addB]).tagA = some 0 ∧
    (raceRun 1000000 1000000
        [RaceEv.loadA, RaceEv.loadB, RaceEv.addA, RaceEv.addB]).tagB = some 0 ∧
    (raceRun 1000000 1000000
        [RaceEv.loadA, RaceEv.loadB, RaceEv.addA, RaceEv.addB]).pts = 2000000 := by
  decide

/-! ### Claims C6, C7, C8: configuration immutability, stop safety,
push rejection -/

/-- Claim C6: the stream configuration — sample rate, channel count, bit
depth, and the sample-format tag — is immutable after construction: start,
stop, push_pcm_data and push_silence all leave `rate_`, `channels_`,
`depth_` and `format_` unchanged; in particular `stop` does not clear
`format_`. -/
theorem c6_config_immutable (c : Component) (e : Bool) (r : GstFlowReturn)
    (data : List Int) (d : Nat) :
    configOf (start c e).1 = configOf c ∧
    configOf (stop c) = configOf c ∧
    configOf (push_pcm_data c r data).comp = configOf c ∧
    configOf (push_silence c r d).comp = configOf c ∧
    (stop c).format = c.format := by
  refine ⟨?_, ?_, push_pcm_data_comp_fields c r data,
    push_pcm_data_comp_fields c r _, ?_⟩
  · unfold start
    split <;> rfl
  · simp only [stop]
    split <;> split <;> rfl
  · simp only [stop]
    split <;> split <;> rfl

/-- Claim C7: calling `stop` on a component with no running consumer
thread (never started, or already stopped) does not fail and terminates:
it sets the stop flag, performs the join check without joining anything
(no thread is joinable), leaves the pipeline idle (`NULL` state whenever
the pipeline object exists), changes nothing else, and is idempotent. -/
theorem c7_stop_idle (c : Component) (h : c.threadJoinable = false) :
    (stop c).processingStop = true ∧
    (stop c).threadJoinable = false ∧
    (c.pipelinePresent = true → (stop c).pipelineState = GstState.null) ∧
    stop (stop c) = stop c ∧
    (stop c).pts = c.pts ∧
    configOf (stop c) = configOf c := by
  cases hp : c.pipelinePresent <;>
    refine ⟨?_, ?_, ?_, ?_, ?_, ?_⟩ <;>
    simp [stop, h, hp, configOf]

/-- Witness for C7: `stop` on a freshly constructed, never-started
component. -/
theorem c7_witness :
    (stop (mkPcm2mp3 32000 1 16 "S16LE")).processingStop = true ∧
    (stop (mkPcm2mp3 32000 1 16 "S16LE")).threadJoinable = false ∧
    ((mkPcm2mp3 32000 1 16 "S16LE").pipelinePresent = true →
      (stop (mkPcm2mp3 32000 1 16 "S16LE")).pipelineState = GstState.null) ∧
    stop (stop (mkPcm2mp3 32000 1 16 "S16LE")) = stop (mkPcm2mp3 32000 1 16 "S16LE") ∧
    (stop (mkPcm2mp3 32000 1 16 "S16LE")).pts = (mkPcm2mp3 32000 1 16 "S16LE").pts ∧
    configOf (stop (mkPcm2mp3 32000 1 16 "S16LE")) =
      configOf (mkPcm2mp3 32000 1 16 "S16LE") :=
  c7_stop_idle (mkPcm2mp3 32000 1 16 "S16LE") rfl

/-- Claim C8: for a buffer that passes validation (non-empty, aligned), if
the appsrc collaborator rejects the pushed buffer then `push_pcm_data`
fails with a push error whose message embeds the collaborator's diagnostic
flow name; the buffer was handed to the appsrc exactly once (no internal
retry) and the failure is surfaced synchronously to the caller. -/
theorem c8_push_rejected (c : Component) (r : GstFlowReturn) (data : List Int)
    (hne : data ≠ []) (halign : data.length % sample_size c = 0)
    (hr : r ≠ GstFlowReturn.ok) :
    (push_pcm_data c r data).err =
      some (PcmError.pushError
        ("pcm2mp3 -> failed to push buffer into appsrc: " ++ gst_flow_get_name r)) ∧
    (push_pcm_data c r data).forwarded.map SrcBuffer.data = some data := by
  rw [push_pcm_data_of_rejected c r data hne halign hr]
  exact ⟨rfl, rfl⟩

/-- Witness for C8: a one-byte aligned buffer rejected with the
`flushing` flow return produces a push error naming "flushing". -/
theorem c8_witness :
    (push_pcm_data (mkPcm2mp3 1000 1 8 "S8") GstFlowReturn.flushing [1]).err =
      some (PcmError.pushError
        ("pcm2mp3 -> failed to push buffer into appsrc: " ++
          gst_flow_get_name GstFlowReturn.flushing)) ∧
    (push_pcm_data (mkPcm2mp3 1000 1 8 "S8") GstFlowReturn.flushing [1]).forwarded.map
        SrcBuffer.data = some [1] :=
  c8_push_rejected (mkPcm2mp3 1000 1 8 "S8") GstFlowReturn.flushing [1]
    (by decide) (by decide) (by decide)
